import Mathlib

/-
  Verification development for the telegram-we-join-mapper service.

  The repository contains four near-duplicate variants of the same Express
  service (two concatenated in server.js, plus the two unnamed files).  Each
  variant is embedded in its own namespace, named after the JavaScript
  identifiers it defines:

    ServerJs   - first half of server.js   (lines 1-195)
    ServerJsB  - second half of server.js  (lines 196-443)
    Part000    - src/unnamed/part_000
    Part001    - src/unnamed/part_001

  Firestore documents are modelled as records, a collection as an association
  list from document id to record, and a Firestore transaction / batch as a
  single atomic function on the store (the spec's linearizability premise for
  runTransaction).  Fallible external operations (fetch to Telegram/WebEngage,
  Firestore reads and writes) are modelled by explicit Except values and a
  failure oracle: oracle i = true means the i-th awaited store operation of
  the handler throws.  Event emissions are collected as a list of attempts.
  crypto.createHash("sha256") is embedded as a full executable SHA-256 over
  the string's bytes (all strings involved are ASCII).
-/

set_option maxRecDepth 8000

namespace SHA256

/-- The 64 SHA-256 round constants (FIPS 180-4, written in decimal). -/
def K : List Nat :=
  [1116352408, 1899447441, 3049323471, 3921009573, 961987163, 1508970993,
   2453635748, 2870763221, 3624381080, 310598401, 607225278, 1426881987,
   1925078388, 2162078206, 2614888103, 3248222580, 3835390401, 4022224774,
   264347078, 604807628, 770255983, 1249150122, 1555081692, 1996064986,
   2554220882, 2821834349, 2952996808, 3210313671, 3336571891, 3584528711,
   113926993, 338241895, 666307205, 773529912, 1294757372, 1396182291,
   1695183700, 1986661051, 2177026350, 2456956037, 2730485921, 2820302411,
   3259730800, 3345764771, 3516065817, 3600352804, 4094571909, 275423344,
   430227734, 506948616, 659060556, 883997877, 958139571, 1322822218,
   1537002063, 1747873779, 1955562222, 2024104815, 2227730452, 2361852424,
   2428436474, 2756734187, 3204031479, 3329325298]

/-- The initial SHA-256 hash state (FIPS 180-4, written in decimal). -/
def H0 : List Nat :=
  [1779033703, 3144134277, 1013904242, 2773480762,
   1359893119, 2600822924, 528734635, 1541459225]

def M32 : Nat := 4294967296

/-- 32-bit wrapping addition. -/
def add32 (a b : Nat) : Nat := (a + b) % M32

/-- 32-bit right rotation. -/
def rotr (n x : Nat) : Nat := ((x >>> n) ||| (x <<< (32 - n))) % M32

def xor3 (a b c : Nat) : Nat := (a ^^^ b) ^^^ c

def ssig0 (x : Nat) : Nat := xor3 (rotr 7 x) (rotr 18 x) (x >>> 3)

def ssig1 (x : Nat) : Nat := xor3 (rotr 17 x) (rotr 19 x) (x >>> 10)

def bsig0 (x : Nat) : Nat := xor3 (rotr 2 x) (rotr 13 x) (rotr 22 x)

def bsig1 (x : Nat) : Nat := xor3 (rotr 6 x) (rotr 11 x) (rotr 25 x)

/-- The SHA-256 Ch function (not-x realised as xor with the 32-bit mask). -/
def chF (x y z : Nat) : Nat := (x &&& y) ^^^ ((x ^^^ 0xffffffff) &&& z)

/-- The SHA-256 Maj function. -/
def majF (x y z : Nat) : Nat := ((x &&& y) ^^^ (x &&& z)) ^^^ (y &&& z)

/-- Big-endian 8-byte encoding of the message bit length. -/
def beBytes8 (n : Nat) : List Nat :=
  [(n >>> 56) % 256, (n >>> 48) % 256, (n >>> 40) % 256, (n >>> 32) % 256,
   (n >>> 24) % 256, (n >>> 16) % 256, (n >>> 8) % 256, n % 256]

/-- SHA-256 padding: append 0x80, zero bytes up to 56 mod 64, then the bit length. -/
def padBytes (msg : List Nat) : List Nat :=
  msg ++ [0x80] ++ List.replicate ((119 - msg.length % 64) % 64) 0 ++ beBytes8 (msg.length * 8)

/-- Group bytes into big-endian 32-bit words. -/
def toWords : List Nat → List Nat
  | a :: b :: c :: d :: rest => (((a * 256 + b) * 256 + c) * 256 + d) :: toWords rest
  | _ => []

/-- Extend the 16-word message block by the given number of schedule words. -/
def extendSchedule (ws : List Nat) : Nat → List Nat
  | 0 => ws
  | n + 1 =>
    let i := ws.length
    let w := add32 (add32 (ssig1 (ws.getD (i - 2) 0)) (ws.getD (i - 7) 0))
                   (add32 (ssig0 (ws.getD (i - 15) 0)) (ws.getD (i - 16) 0))
    extendSchedule (ws ++ [w]) n

/-- The eight 32-bit working variables of the compression function. -/
structure Hs where
  a : Nat
  b : Nat
  c : Nat
  d : Nat
  e : Nat
  f : Nat
  g : Nat
  h : Nat

/-- One SHA-256 compression round. -/
def round (st : Hs) (ki wi : Nat) : Hs :=
  let t1 := add32 st.h (add32 (bsig1 st.e) (add32 (chF st.e st.f st.g) (add32 ki wi)))
  let t2 := add32 (bsig0 st.a) (majF st.a st.b st.c)
  ⟨add32 t1 t2, st.a, st.b, st.c, add32 st.d t1, st.e, st.f, st.g⟩

/-- Compress one 64-byte block into the running hash. -/
def compressBlock (h : List Nat) (block : List Nat) : List Nat :=
  let ws := extendSchedule (toWords block) 48
  let i : Hs := ⟨h.getD 0 0, h.getD 1 0, h.getD 2 0, h.getD 3 0,
                 h.getD 4 0, h.getD 5 0, h.getD 6 0, h.getD 7 0⟩
  let f := (List.zip K ws).foldl (fun st kw => round st kw.1 kw.2) i
  [add32 (h.getD 0 0) f.a, add32 (h.getD 1 0) f.b, add32 (h.getD 2 0) f.c,
   add32 (h.getD 3 0) f.d, add32 (h.getD 4 0) f.e, add32 (h.getD 5 0) f.f,
   add32 (h.getD 6 0) f.g, add32 (h.getD 7 0) f.h]

/-- Fold the compression function over the given number of 64-byte blocks. -/
def processBlocks : Nat → List Nat → List Nat → List Nat
  | 0, h, _ => h
  | n + 1, h, l => processBlocks n (compressBlock h (l.take 64)) (l.drop 64)

def hexDigit (n : Nat) : Char := if n < 10 then Char.ofNat (48 + n) else Char.ofNat (87 + n)

def hexWord (n : Nat) : List Char :=
  [hexDigit ((n >>> 28) % 16), hexDigit ((n >>> 24) % 16), hexDigit ((n >>> 20) % 16),
   hexDigit ((n >>> 16) % 16), hexDigit ((n >>> 12) % 16), hexDigit ((n >>> 8) % 16),
   hexDigit ((n >>> 4) % 16), hexDigit (n % 16)]

/-- Byte sequence of a string.  All inputs hashed in this development are
ASCII, where the UTF-8 bytes are exactly the code points. -/
def strBytes (s : String) : List Nat := s.data.map Char.toNat

/-- Lowercase hex SHA-256 digest of a string, as produced by
crypto.createHash("sha256").update(s).digest("hex"). -/
def sha256hex (s : String) : String :=
  let padded := padBytes (strBytes s)
  let ws := processBlocks (padded.length / 64) H0 padded
  String.mk (ws.foldr (fun w acc => hexWord w ++ acc) [])

end SHA256

/-- A JavaScript value in the positions the hashers receive: a string, null,
or undefined (an absent value). -/
inductive JsVal where
  | str (s : String)
  | null
  | undefined
deriving DecidableEq

/-- JavaScript String(v) coercion on the values above. -/
def jsToString : JsVal → String
  | .str s => s
  | .null => "null"
  | .undefined => "undefined"

/-- JavaScript truthiness of the values above. -/
def jsTruthy : JsVal → Bool
  | .str s => !(s == "")
  | .null => false
  | .undefined => false

/-- JavaScript String(v || ""): the empty string for every falsy input. -/
def jsOrEmptyStr (v : JsVal) : String := if jsTruthy v then jsToString v else ""

def isWs (c : Char) : Bool := c == ' ' || c == '\t' || c == '\n' || c == '\r'

def dropLeadWs : List Char → List Char
  | [] => []
  | c :: cs => if isWs c then dropLeadWs cs else c :: cs

/-- JavaScript String.prototype.trim (for the ASCII whitespace occurring
here), written so that it reduces in the kernel. -/
def jsTrim (s : String) : String :=
  String.mk ((dropLeadWs ((dropLeadWs s.data).reverse)).reverse)

/-- A document of the txn_invites collection (field set is the union over the
variants; fields a variant does not write are none). -/
structure TxnRecord where
  userId : String
  transactionId : String
  inviteLink : String
  inviteHash : String
  joined : Bool
  createdAt : Option String
  telegramUserId : Option String
  joinedAt : Option String
deriving DecidableEq

/-- A document of the invite_lookup collection. -/
structure InvRecord where
  transactionId : String
  userId : String
  inviteLink : String
  createdAt : Option String
  inviteHash : Option String
deriving DecidableEq

/-- A document of the orphan_joins collection (union of the field sets used by
server.js, which stamps createdAt, and part_001, which stamps receivedAt). -/
structure OrphanRecord where
  inviteLink : String
  inviteHash : Option String
  telegramUserId : Option String
  chatId : Option String
  createdAt : Option String
  receivedAt : Option String
  reason : String
deriving DecidableEq

/-- The durable Firestore state: both keyed collections plus the append-only
orphan log. -/
structure Store where
  txns : List (String × TxnRecord)
  invs : List (String × InvRecord)
  orphans : List OrphanRecord
deriving DecidableEq

def emptyStore : Store := ⟨[], [], []⟩

/-- One WebEngage event emission attempt, with the eventData fields used by
the two event kinds of this service. -/
structure Event where
  userId : String
  eventName : String
  transactionId : String
  inviteLink : String
  telegramUserId : Option String
  reused : Option Bool
deriving DecidableEq

/-- An HTTP response of the webhook endpoint (res.send defaults to 200). -/
structure Resp where
  status : Nat
  body : String
deriving DecidableEq

/-- An HTTP response of the create-invite endpoint. -/
structure InviteResp where
  status : Nat
  ok : Bool
  inviteLink : Option String
  reused : Option Bool
  error : Option String
deriving DecidableEq

/-- The fetch outcome the emitter observes: a transport error, or a response
with its res.ok flag, status and body text. -/
structure HttpResp where
  ok : Bool
  status : Nat
  body : String
deriving DecidableEq

/-- The environment configuration read at process start. -/
structure Config where
  channelId : String
  webhookSecret : String
  storeApiKey : String
  fireJoinEvent : Bool

/-- The fields the webhook reads from a chat_member update object via optional
chaining; none models an absent field. -/
structure ChatMemberUpdate where
  chatId : Option String
  newStatus : Option String
  newUserId : Option String
  inviteLink : Option String
deriving DecidableEq

/-- A webhook request body.  topLevel holds the same keys read off the body
object itself, for part_000's `|| body` fallback. -/
structure WebhookBody where
  chat_member : Option ChatMemberUpdate
  my_chat_member : Option ChatMemberUpdate
  topLevel : ChatMemberUpdate
deriving DecidableEq

def emptyUpd : ChatMemberUpdate := ⟨none, none, none, none⟩

/-- Firestore document lookup in a collection. -/
def lookupKey {α : Type} : List (String × α) → String → Option α
  | [], _ => none
  | (k', v) :: rest, k => if k' = k then some v else lookupKey rest k

/-- Firestore document set (upsert) in a collection. -/
def setKey {α : Type} : List (String × α) → String → α → List (String × α)
  | [], k, v => [(k, v)]
  | (k', v') :: rest, k, v => if k' = k then (k, v) :: rest else (k', v') :: setKey rest k v

/-- The oracle describing a run in which no store operation throws. -/
def failNever : Nat → Bool := fun _ => false

/-- The webhook's conditional join transaction, shared verbatim by the three
webhook variants (server.js 170-176, part_000 159-165, part_001 239-256): read
the txn_invites document; if it is absent or already joined do nothing and
report false, otherwise set joined, telegramUserId and joinedAt and report
true.  part_001 uses set with merge:true instead of update; on these fields
the two writes coincide.  Firestore runTransaction makes this one atomic,
linearizable step on the store. -/
def markJoinedIfNotAlready (s : Store) (transactionId : String)
    (telegramUserId : Option String) (tNow : String) : Store × Bool :=
  match lookupKey s.txns transactionId with
  | none => (s, false)
  | some r =>
    if r.joined then (s, false)
    else
      ({ s with txns := (setKey s.txns transactionId
          { r with joined := true, telegramUserId := telegramUserId, joinedAt := some tNow }) },
       true)

/-- Apply a sequence of conditional join transactions for one transactionId
(each element carries the joining user and timestamp of that delivery),
returning the final store and the fired flag of every call in order. -/
def runMarkCalls (s : Store) (transactionId : String) :
    List (Option String × String) → Store × List Bool
  | [] => (s, [])
  | (u, t) :: rest =>
    let m := markJoinedIfNotAlready s transactionId u t
    let r := runMarkCalls m.1 transactionId rest
    (r.1, m.2 :: r.2)

/-- The spec's active-membership vocabulary. -/
def isActiveStatus (st : String) : Bool :=
  st == "member" || st == "administrator" || st == "creator"

/-- Active-membership test on a possibly absent status field. -/
def isActiveStatusOpt : Option String → Bool
  | some st => isActiveStatus st
  | none => false

/-- Count of joined events for one transactionId among emission attempts. -/
def joinedCount (transactionId : String) (evs : List Event) : Nat :=
  (evs.filter fun e =>
    e.eventName == "pass_paid_community_telegram_joined"
      && e.transactionId == transactionId).length

namespace ServerJs

/-- server.js line 33: hash = (s) => sha256 of String(s || ""). -/
def hash (v : JsVal) : String := SHA256.sha256hex (jsOrEmptyStr v)

/-- server.js 36-61: the whole body is wrapped in try/catch; a non-2xx
response or a transport error is only logged, so the function always returns
normally (ok with its log lines). -/
def webengageFireEvent (net : Except String HttpResp) : Except String (List String) :=
  match net with
  | .error e => .ok ["[WebEngage Critical] " ++ e]
  | .ok r => .ok (if r.ok then [] else ["[WebEngage] Error " ++ toString r.status ++ ": " ++ r.body])

/-- server.js 142-143: upd = body.chat_member || body.my_chat_member || {}. -/
def updOf (b : WebhookBody) : ChatMemberUpdate :=
  (b.chat_member.orElse fun _ => b.my_chat_member).getD emptyUpd

/-- server.js 99-118: the body of the create-invite runTransaction.  If a
txn_invites document with a truthy inviteLink exists the stored link is
reused; otherwise a link is minted (mint is the Telegram call's outcome; its
error aborts the transaction) and both documents are written in this one
atomic step. -/
def createInviteTxn (userId transactionId : String) (mint : Except String String)
    (s : Store) (tNow : String) : Except String (Store × String × Bool) :=
  let existingLink : Option String :=
    match lookupKey s.txns transactionId with
    | some r => if r.inviteLink ≠ "" then some r.inviteLink else none
    | none => none
  match existingLink with
  | some link => .ok (s, link, true)
  | none =>
    match mint with
    | .error e => .error e
    | .ok inviteLink =>
      let invHash := hash (.str inviteLink)
      .ok ({ s with
              txns := setKey s.txns transactionId
                ⟨userId, transactionId, inviteLink, invHash, false, some tNow, none, none⟩,
              invs := setKey s.invs invHash
                ⟨transactionId, userId, inviteLink, some tNow, none⟩ },
            inviteLink, false)

/-- server.js 87-133: POST /create-invite.  oracle 0 true means the Firestore
transaction itself throws (nothing commits).  The third component lists the
WebEngage emission attempts. -/
def createInvite (cfg : Config) (apiKey : Option String) (userId transactionId : String)
    (mint : Except String String) (oracle : Nat → Bool) (s : Store) (tNow : String) :
    InviteResp × Store × List Event :=
  if apiKey ≠ some cfg.storeApiKey then
    (⟨401, false, none, none, some "Unauthorized"⟩, s, [])
  else if userId = "" ∨ transactionId = "" then
    (⟨400, false, none, none, some "Missing parameters"⟩, s, [])
  else if oracle 0 then (⟨500, false, none, none, some "store error"⟩, s, [])
  else
    match createInviteTxn userId transactionId mint s tNow with
    | .error e => (⟨500, false, none, none, some e⟩, s, [])
    | .ok (s', link, reused) =>
      (⟨200, true, some link, some reused, none⟩, s',
        [⟨"pass_" ++ userId, "pass_paid_community_telegram_link_created",
          transactionId, link, none, some reused⟩])

/-- server.js 135-193: POST /telegram-webhook.  oracle indices: 0 the
invite_lookup get, 1 the orphan add, 2 the join runTransaction; a thrown
error reaches the catch, which answers 200 "ok: error logged". -/
def webhook (cfg : Config) (secretHeader : Option String) (b : WebhookBody) (s : Store)
    (oracle : Nat → Bool) (net : Except String HttpResp) (tNow : String) :
    Resp × Store × List Event :=
  if secretHeader ≠ some cfg.webhookSecret then (⟨403, "Forbidden"⟩, s, [])
  else
    let upd := updOf b
    let status := upd.newStatus
    let telegramUserId := upd.newUserId
    let chatId := upd.chatId.getD ""
    if chatId ≠ cfg.channelId then (⟨200, "ignored: wrong channel"⟩, s, [])
    else if !(status == some "member" || status == some "administrator") then
      (⟨200, "ignored: not a join"⟩, s, [])
    else if upd.inviteLink.getD "" = "" then (⟨200, "ignored: no link detected"⟩, s, [])
    else
      let link := upd.inviteLink.getD ""
      if oracle 0 then (⟨200, "ok: error logged"⟩, s, [])
      else
        match lookupKey s.invs (hash (.str link)) with
        | none =>
          if oracle 1 then (⟨200, "ok: error logged"⟩, s, [])
          else
            (⟨200, "ok: orphan stored"⟩,
             { s with orphans := s.orphans ++
                 [⟨link, none, telegramUserId, none, some tNow, none, "Link not in database"⟩] },
             [])
        | some inv =>
          if oracle 2 then (⟨200, "ok: error logged"⟩, s, [])
          else
            let m := markJoinedIfNotAlready s inv.transactionId telegramUserId tNow
            (⟨200, "ok: join confirmed"⟩, m.1,
              if m.2 && cfg.fireJoinEvent then
                [⟨"pass_" ++ inv.userId, "pass_paid_community_telegram_joined",
                  inv.transactionId, link, telegramUserId, none⟩]
              else [])

/-- One webhook delivery: its header, body, failure oracle, emitter network
outcome and arrival timestamp. -/
structure WebhookCall where
  secretHeader : Option String
  body : WebhookBody
  oracle : Nat → Bool
  net : Except String HttpResp
  tNow : String

/-- Process a sequence of webhook deliveries against the shared store,
collecting every emission attempt. -/
def runWebhooks (cfg : Config) (s : Store) : List WebhookCall → Store × List Event
  | [] => (s, [])
  | c :: cs =>
    let r := webhook cfg c.secretHeader c.body s c.oracle c.net c.tNow
    let rest := runWebhooks cfg r.2.1 cs
    (rest.1, r.2.2 ++ rest.2)

end ServerJs

namespace ServerJsB

/-- server.js 248-250 (second variant): sha256 of String(link), with no
fallback for falsy input. -/
def hashInviteLink (v : JsVal) : String := SHA256.sha256hex (jsToString v)

end ServerJsB

namespace Part000

/-- part_000 line 31: sha256 of String(link || ""). -/
def hashInviteLink (v : JsVal) : String := SHA256.sha256hex (jsOrEmptyStr v)

/-- part_000 38-70: the fetch is wrapped in try/catch; the function returns
res.ok, or false on a transport error, and never throws. -/
def webengageFireEvent (net : Except String HttpResp) : Except String Bool :=
  match net with
  | .error _ => .ok false
  | .ok r => .ok r.ok

/-- part_000 line 140: upd = body.chat_member || body.my_chat_member || body. -/
def updOf (b : WebhookBody) : ChatMemberUpdate :=
  (b.chat_member.orElse fun _ => b.my_chat_member).getD b.topLevel

/-- part_000 100-132: POST /create-invite.  No idempotency check: the
Telegram mint runs unconditionally and the batch (one atomic write, oracle 0)
overwrites both documents. -/
def createInvite (cfg : Config) (apiKey : Option String) (userId transactionId : String)
    (mint : Except String String) (oracle : Nat → Bool) (s : Store) :
    InviteResp × Store × List Event :=
  if apiKey ≠ some cfg.storeApiKey then
    (⟨401, false, none, none, some "Unauthorized"⟩, s, [])
  else if userId = "" ∨ transactionId = "" then
    (⟨400, false, none, none, some "Missing data"⟩, s, [])
  else
    match mint with
    | .error e => (⟨500, false, none, none, some e⟩, s, [])
    | .ok inviteLink =>
      let invHash := hashInviteLink (.str inviteLink)
      if oracle 0 then (⟨500, false, none, none, some "store error"⟩, s, [])
      else
        let s' := { s with
          txns := setKey s.txns transactionId
            ⟨userId, transactionId, inviteLink, invHash, false, none, none, none⟩,
          invs := setKey s.invs invHash ⟨transactionId, userId, inviteLink, none, none⟩ }
        (⟨200, true, some inviteLink, none, none⟩, s',
          [⟨userId, "pass_paid_community_telegram_link_created",
            transactionId, inviteLink, none, none⟩])

/-- part_000 137-180: POST /telegram-webhook.  No secret check.  oracle
indices: 0 the invite_lookup get, 1 the join runTransaction.  An unmatched
fingerprint is answered "link not found" with no orphan record.  The catch
answers 200 "logged". -/
def webhook (cfg : Config) (b : WebhookBody) (s : Store) (oracle : Nat → Bool)
    (net : Except String HttpResp) (tNow : String) : Resp × Store × List Event :=
  let upd := updOf b
  let chatId := jsTrim (upd.chatId.getD "")
  let newStatus := jsTrim (upd.newStatus.getD "")
  let telegramUserId := jsTrim (upd.newUserId.getD "")
  let inviteLink := jsTrim (upd.inviteLink.getD "")
  if !(newStatus == "member" || newStatus == "administrator" || newStatus == "creator") then
    (⟨200, "ignored"⟩, s, [])
  else if chatId ≠ cfg.channelId then (⟨200, "wrong channel"⟩, s, [])
  else if inviteLink = "" then (⟨200, "no link"⟩, s, [])
  else if oracle 0 then (⟨200, "logged"⟩, s, [])
  else
    match lookupKey s.invs (hashInviteLink (.str inviteLink)) with
    | none => (⟨200, "link not found"⟩, s, [])
    | some inv =>
      if oracle 1 then (⟨200, "logged"⟩, s, [])
      else
        let m := markJoinedIfNotAlready s inv.transactionId (some telegramUserId) tNow
        (⟨200, "ok"⟩, m.1,
          if m.2 then
            [⟨inv.userId, "pass_paid_community_telegram_joined",
              inv.transactionId, inviteLink, some telegramUserId, none⟩]
          else [])

end Part000

namespace Part001

/-- part_001 59-60: sha256 of String(inviteLink), with no fallback for falsy
input. -/
def hashInvite (v : JsVal) : String := SHA256.sha256hex (jsToString v)

/-- part_001 93-113: no try/catch; a transport error propagates, and a
non-2xx response is turned into a thrown Error carrying the status and body. -/
def fireWebEngageEvent (net : Except String HttpResp) : Except String Unit :=
  match net with
  | .error e => .error e
  | .ok r =>
    if r.ok then .ok ()
    else .error ("WebEngage failed: " ++ toString r.status ++ " " ++ r.body)

/-- part_001 195: upd = body.chat_member || body.my_chat_member (no fallback
to the body itself). -/
def updOf (b : WebhookBody) : Option ChatMemberUpdate :=
  b.chat_member.orElse fun _ => b.my_chat_member

/-- part_001 155-164: the first of the two separate issuance writes (the
txn_invites set). -/
def txnWrite (userId transactionId inviteLink inviteHash tNow : String) (s : Store) : Store :=
  { s with txns := (setKey s.txns transactionId
      ⟨userId, transactionId, inviteLink, inviteHash, false, some tNow, some "", some ""⟩) }

/-- part_001 166-172: the second, separately awaited issuance write (the
invite_lookup set). -/
def invWrite (userId transactionId inviteLink inviteHash tNow : String) (s : Store) : Store :=
  { s with invs := (setKey s.invs inviteHash
      ⟨transactionId, userId, inviteLink, some tNow, some inviteHash⟩) }

/-- part_001 123-179: POST /create-invite.  The two document writes are two
separately awaited set calls, not a transaction or batch: oracle 0 fails the
first write (nothing written), oracle 1 fails the second write after the
first has already committed.  part_001's issuance fires no WebEngage event. -/
def createInvite (cfg : Config) (apiKey : Option String)
    (userIdRaw transactionIdRaw : Option String) (mint : Except String String)
    (oracle : Nat → Bool) (s : Store) (tNow : String) : InviteResp × Store :=
  if apiKey ≠ some cfg.storeApiKey then (⟨401, false, none, none, some "Unauthorized"⟩, s)
  else
    let userId := jsTrim (userIdRaw.getD "")
    let transactionId := jsTrim (transactionIdRaw.getD "")
    if userId = "" ∨ transactionId = "" then
      (⟨400, false, none, none, some "Missing parameters"⟩, s)
    else
      let existingLink : Option String :=
        match lookupKey s.txns transactionId with
        | some r => if r.inviteLink ≠ "" then some r.inviteLink else none
        | none => none
      match existingLink with
      | some link => (⟨200, true, some link, some true, none⟩, s)
      | none =>
        match mint with
        | .error e => (⟨500, false, none, none, some e⟩, s)
        | .ok inviteLink =>
          let inviteHash := hashInvite (.str inviteLink)
          if oracle 0 then (⟨500, false, none, none, some "store error"⟩, s)
          else
            let s1 := txnWrite userId transactionId inviteLink inviteHash tNow s
            if oracle 1 then (⟨500, false, none, none, some "store error"⟩, s1)
            else
              let s2 := invWrite userId transactionId inviteLink inviteHash tNow s1
              (⟨200, true, some inviteLink, some false, none⟩, s2)

/-- part_001 184-275: POST /telegram-webhook.  oracle indices: 0 the
invite_lookup get, 1 the orphan add, 2 the join runTransaction.  The awaited
emitter can throw; the catch answers 200 "ok: error logged" while the already
committed join transaction persists. -/
def webhook (cfg : Config) (secretHeader : Option String) (b : WebhookBody) (s : Store)
    (oracle : Nat → Bool) (net : Except String HttpResp) (tNow : String) :
    Resp × Store × List Event :=
  if secretHeader ≠ some cfg.webhookSecret then (⟨403, "Forbidden"⟩, s, [])
  else
    match updOf b with
    | none => (⟨200, "ignored"⟩, s, [])
    | some upd =>
      let chatId := upd.chatId.getD ""
      if chatId ≠ cfg.channelId then (⟨200, "ignored: other channel"⟩, s, [])
      else
        let status := upd.newStatus
        if !(status == some "member" || status == some "administrator"
              || status == some "creator") then
          (⟨200, "ignored: not join"⟩, s, [])
        else
          let inviteLink := upd.inviteLink.getD ""
          let telegramUserId := upd.newUserId.getD ""
          if inviteLink = "" ∨ telegramUserId = "" then
            (⟨200, "ignored: missing data"⟩, s, [])
          else
            let inviteHash := hashInvite (.str inviteLink)
            if oracle 0 then (⟨200, "ok: error logged"⟩, s, [])
            else
              match lookupKey s.invs inviteHash with
              | none =>
                if oracle 1 then (⟨200, "ok: error logged"⟩, s, [])
                else
                  (⟨200, "ok: orphan stored"⟩,
                   { s with orphans := s.orphans ++
                       [⟨inviteLink, some inviteHash, some telegramUserId, some chatId,
                         none, some tNow, "Invite not found"⟩] },
                   [])
              | some inv =>
                if oracle 2 then (⟨200, "ok: error logged"⟩, s, [])
                else
                  let m := markJoinedIfNotAlready s inv.transactionId (some telegramUserId) tNow
                  if m.2 && cfg.fireJoinEvent then
                    let ev : Event := ⟨inv.userId, "pass_paid_community_telegram_joined",
                      inv.transactionId, inviteLink, some telegramUserId, none⟩
                    match fireWebEngageEvent net with
                    | .error _ => (⟨200, "ok: error logged"⟩, m.1, [ev])
                    | .ok _ => (⟨200, "ok: join processed"⟩, m.1, [ev])
                  else (⟨200, "ok: join processed"⟩, m.1, [])

end Part001

/-- Concrete configuration for the concrete scenarios below. -/
def cfg0 : Config := ⟨"-100", "sec", "k", true⟩

def updMember : ChatMemberUpdate := ⟨some "-100", some "member", some "42", some "LX"⟩

def updCreator : ChatMemberUpdate := ⟨some "-100", some "creator", some "42", some "LX"⟩

def updLeft : ChatMemberUpdate := ⟨some "-100", some "left", some "42", some "LX"⟩

def bodyMember : WebhookBody := ⟨some updMember, none, emptyUpd⟩

def bodyCreator : WebhookBody := ⟨some updCreator, none, emptyUpd⟩

def bodyLeft : WebhookBody := ⟨some updLeft, none, emptyUpd⟩

def updWrongChan : ChatMemberUpdate := ⟨some "-999", some "member", some "42", some "LX"⟩

def bodyWrongChan : WebhookBody := ⟨some updWrongChan, none, emptyUpd⟩

def netOk : Except String HttpResp := .ok ⟨true, 201, ""⟩

def rec1 : TxnRecord := ⟨"U1", "T1", "L1", "H1", false, some "t0", none, none⟩

def store1 : Store := ⟨[("T1", rec1)], [], []⟩

/-- part_000 issuance called twice for the same transactionId (the provider
minting L1, then L2). -/
def part000_first : InviteResp × Store × List Event :=
  Part000.createInvite cfg0 (some "k") "U1" "T1" (.ok "L1") failNever emptyStore

def part000_second : InviteResp × Store × List Event :=
  Part000.createInvite cfg0 (some "k") "U1" "T1" (.ok "L2") failNever part000_first.2.1

/-- server.js issuance called twice for the same transactionId; on the second
call the provider is made to fail, showing the reuse path never mints. -/
def serverjs_first : InviteResp × Store × List Event :=
  ServerJs.createInvite cfg0 (some "k") "U1" "T1" (.ok "L1") failNever emptyStore "t0"

def serverjs_second : InviteResp × Store × List Event :=
  ServerJs.createInvite cfg0 (some "k") "U1" "T1" (.error "NOMINT") failNever serverjs_first.2.1 "t1"

/-- part_001 first issuance, completed. -/
def part001_first : InviteResp × Store :=
  Part001.createInvite cfg0 (some "k") (some "U1") (some "T1") (.ok "L1") failNever emptyStore "t0"

/-- The store between part_001's two issuance writes. -/
def part001_mid : Store :=
  Part001.txnWrite "U1" "T1" "L1" (Part001.hashInvite (.str "L1")) "t0" emptyStore

/-- part_001 first issuance in a run where the second write throws. -/
def part001_firstFail : InviteResp × Store :=
  Part001.createInvite cfg0 (some "k") (some "U1") (some "T1") (.ok "L1")
    (fun i => i == 1) emptyStore "t0"

/-- The record at transactionId is absent or already joined (the terminal
JOINED state of the matcher). -/
def TxnJoined (s : Store) (transactionId : String) : Prop :=
  ∀ r, lookupKey s.txns transactionId = some r → r.joined = true

theorem sha256hex_empty_vector :
    SHA256.sha256hex "" = "e3b0c44298fc1c149afbf4c8996fb92427ae41e4649b934ca495991b7852b855" := by
  decide

theorem sha256hex_abc_vector :
    SHA256.sha256hex "abc" = "ba7816bf8f01cfea414140de5dae2223b00361a396177a9cb410ff61f20015ad" := by
  decide

theorem lookupKey_setKey_self {α : Type} (l : List (String × α)) (k : String) (v : α) :
    lookupKey (setKey l k v) k = some v := by
  induction l with
  | nil => simp [setKey, lookupKey]
  | cons p rest ih =>
    obtain ⟨k0, v0⟩ := p
    by_cases h : k0 = k
    · simp [setKey, lookupKey, h]
    · simp [setKey, lookupKey, h, ih]

theorem lookupKey_setKey_ne {α : Type} (l : List (String × α)) (k k' : String) (v : α)
    (h : k' ≠ k) : lookupKey (setKey l k v) k' = lookupKey l k' := by
  induction l with
  | nil =>
    simp only [setKey, lookupKey]
    rw [if_neg fun hh => h hh.symm]
  | cons p rest ih =>
    obtain ⟨k0, v0⟩ := p
    simp only [setKey]
    by_cases h0 : k0 = k
    · rw [if_pos h0]
      subst h0
      simp only [lookupKey]
      rw [if_neg fun hh => h hh.symm, if_neg fun hh => h hh.symm]
    · rw [if_neg h0]
      simp only [lookupKey, ih]

theorem markJoined_not_fired (s : Store) (transactionId : String) (u : Option String)
    (t : String) (h : (markJoinedIfNotAlready s transactionId u t).2 = false) :
    (markJoinedIfNotAlready s transactionId u t).1 = s := by
  unfold markJoinedIfNotAlready at *
  cases hl : lookupKey s.txns transactionId with
  | none => simp [hl]
  | some r =>
    by_cases hj : r.joined
    · simp [hl, hj]
    · simp [hl, hj] at h

theorem markJoined_fired (s : Store) (transactionId : String) (u : Option String)
    (t : String) (r : TxnRecord) (hl : lookupKey s.txns transactionId = some r)
    (hj : r.joined = false) :
    markJoinedIfNotAlready s transactionId u t =
      ({ s with txns := (setKey s.txns transactionId
          { r with joined := true, telegramUserId := u, joinedAt := some t }) }, true) := by
  simp [markJoinedIfNotAlready, hl, hj]

theorem markJoined_no_op (s : Store) (transactionId : String) (u : Option String)
    (t : String) (h : TxnJoined s transactionId) :
    markJoinedIfNotAlready s transactionId u t = (s, false) := by
  cases hl : lookupKey s.txns transactionId with
  | none => simp [markJoinedIfNotAlready, hl]
  | some r => simp [markJoinedIfNotAlready, hl, h r hl]

theorem markJoined_fired_joined (s : Store) (transactionId : String) (u : Option String)
    (t : String) (h : (markJoinedIfNotAlready s transactionId u t).2 = true) :
    TxnJoined (markJoinedIfNotAlready s transactionId u t).1 transactionId := by
  intro r hr
  unfold markJoinedIfNotAlready at h hr
  cases hl : lookupKey s.txns transactionId with
  | none => rw [hl] at h; cases h
  | some r0 =>
    rw [hl] at h hr
    dsimp only at h hr
    by_cases hj : r0.joined
    · rw [if_pos hj] at h; cases h
    · rw [if_neg hj] at hr
      dsimp only at hr
      rw [lookupKey_setKey_self] at hr
      cases hr
      rfl

theorem markJoined_preserves_joined (s : Store) (transactionId other : String)
    (u : Option String) (t : String) (h : TxnJoined s transactionId) :
    TxnJoined (markJoinedIfNotAlready s other u t).1 transactionId := by
  intro r hr
  unfold markJoinedIfNotAlready at hr
  cases hl : lookupKey s.txns other with
  | none => rw [hl] at hr; exact h r hr
  | some r0 =>
    rw [hl] at hr
    dsimp only at hr
    by_cases hj : r0.joined
    · rw [if_pos hj] at hr; exact h r hr
    · rw [if_neg hj] at hr
      dsimp only at hr
      by_cases hid : other = transactionId
      · subst hid
        rw [lookupKey_setKey_self] at hr
        cases hr
        rfl
      · rw [lookupKey_setKey_ne _ _ _ _ fun hh => hid hh.symm] at hr
        exact h r hr

theorem markJoined_invs (s : Store) (transactionId : String) (u : Option String)
    (t : String) : (markJoinedIfNotAlready s transactionId u t).1.invs = s.invs := by
  unfold markJoinedIfNotAlready
  cases lookupKey s.txns transactionId with
  | none => rfl
  | some r =>
    dsimp only
    by_cases hj : r.joined
    · rw [if_pos hj]
    · rw [if_neg hj]

theorem runMarkCalls_no_op (transactionId : String) (cs : List (Option String × String))
    (s : Store) (h : TxnJoined s transactionId) :
    runMarkCalls s transactionId cs = (s, List.replicate cs.length false) := by
  induction cs generalizing s with
  | nil => simp [runMarkCalls]
  | cons c rest ih =>
    obtain ⟨u, t⟩ := c
    simp [runMarkCalls, markJoined_no_op s transactionId u t h, ih s h, List.replicate_succ]

theorem runMarkCalls_count_le_one (transactionId : String)
    (cs : List (Option String × String)) (s : Store) :
    (runMarkCalls s transactionId cs).2.count true ≤ 1 := by
  induction cs generalizing s with
  | nil => simp [runMarkCalls]
  | cons c rest ih =>
    obtain ⟨u, t⟩ := c
    simp only [runMarkCalls]
    cases hf : (markJoinedIfNotAlready s transactionId u t).2 with
    | false =>
      simpa [List.count_cons, hf] using ih (markJoinedIfNotAlready s transactionId u t).1
    | true =>
      rw [runMarkCalls_no_op transactionId rest _ (markJoined_fired_joined s transactionId u t hf)]
      simp [List.count_cons, List.count_replicate]

theorem joinedCount_append (transactionId : String) (a b : List Event) :
    joinedCount transactionId (a ++ b)
      = joinedCount transactionId a + joinedCount transactionId b := by
  simp [joinedCount, List.filter_append]

theorem serverjs_webhook_shape (cfg : Config) (sh : Option String) (b : WebhookBody)
    (s : Store) (oracle : Nat → Bool) (net : Except String HttpResp) (t : String) :
    ((ServerJs.webhook cfg sh b s oracle net t).2.1.txns = s.txns
      ∧ (ServerJs.webhook cfg sh b s oracle net t).2.2 = [])
    ∨ ∃ id u uname ulink,
        (ServerJs.webhook cfg sh b s oracle net t).2 =
          ((markJoinedIfNotAlready s id u t).1,
            if (markJoinedIfNotAlready s id u t).2 && cfg.fireJoinEvent then
              [⟨uname, "pass_paid_community_telegram_joined", id, ulink, u, none⟩]
            else []) := by
  unfold ServerJs.webhook
  dsimp only
  split
  · exact Or.inl ⟨rfl, rfl⟩
  split
  · exact Or.inl ⟨rfl, rfl⟩
  split
  · exact Or.inl ⟨rfl, rfl⟩
  split
  · exact Or.inl ⟨rfl, rfl⟩
  split
  · exact Or.inl ⟨rfl, rfl⟩
  split
  · split
    · exact Or.inl ⟨rfl, rfl⟩
    · exact Or.inl ⟨rfl, rfl⟩
  · split
    · exact Or.inl ⟨rfl, rfl⟩
    · exact Or.inr ⟨_, _, _, _, rfl⟩

theorem serverjs_webhook_joined_preserved (cfg : Config) (transactionId : String)
    (sh : Option String) (b : WebhookBody) (s : Store) (oracle : Nat → Bool)
    (net : Except String HttpResp) (t : String) (h : TxnJoined s transactionId) :
    TxnJoined (ServerJs.webhook cfg sh b s oracle net t).2.1 transactionId := by
  rcases serverjs_webhook_shape cfg sh b s oracle net t with ⟨htx, _⟩ | ⟨id, u, uname, ulink, heq⟩
  · intro r hr
    rw [htx] at hr
    exact h r hr
  · have h1 : (ServerJs.webhook cfg sh b s oracle net t).2.1
        = (markJoinedIfNotAlready s id u t).1 := by rw [heq]
    rw [h1]
    exact markJoined_preserves_joined s transactionId id u t h

theorem serverjs_webhook_no_emit (cfg : Config) (transactionId : String) (sh : Option String)
    (b : WebhookBody) (s : Store) (oracle : Nat → Bool) (net : Except String HttpResp)
    (t : String) (h : TxnJoined s transactionId) :
    joinedCount transactionId (ServerJs.webhook cfg sh b s oracle net t).2.2 = 0 := by
  rcases serverjs_webhook_shape cfg sh b s oracle net t with ⟨_, hev⟩ | ⟨id, u, uname, ulink, heq⟩
  · rw [hev]
    rfl
  · have h2 : (ServerJs.webhook cfg sh b s oracle net t).2.2
        = (if (markJoinedIfNotAlready s id u t).2 && cfg.fireJoinEvent then
            [⟨uname, "pass_paid_community_telegram_joined", id, ulink, u, none⟩]
          else []) := by rw [heq]
    rw [h2]
    by_cases hid : id = transactionId
    · subst hid
      rw [markJoined_no_op s id u t h]
      rfl
    · split
      · simp [joinedCount, List.filter_cons, hid]
      · rfl

theorem serverjs_webhook_emit_le_one (cfg : Config) (transactionId : String)
    (sh : Option String) (b : WebhookBody) (s : Store) (oracle : Nat → Bool)
    (net : Except String HttpResp) (t : String) :
    joinedCount transactionId (ServerJs.webhook cfg sh b s oracle net t).2.2 ≤ 1 := by
  rcases serverjs_webhook_shape cfg sh b s oracle net t with ⟨_, hev⟩ | ⟨id, u, uname, ulink, heq⟩
  · rw [hev]
    exact Nat.zero_le 1
  · have h2 : (ServerJs.webhook cfg sh b s oracle net t).2.2
        = (if (markJoinedIfNotAlready s id u t).2 && cfg.fireJoinEvent then
            [⟨uname, "pass_paid_community_telegram_joined", id, ulink, u, none⟩]
          else []) := by rw [heq]
    rw [h2]
    split
    · simp only [joinedCount, List.filter_cons]
      split <;> simp
    · exact Nat.zero_le 1

theorem serverjs_webhook_emit_joined (cfg : Config) (transactionId : String)
    (sh : Option String) (b : WebhookBody) (s : Store) (oracle : Nat → Bool)
    (net : Except String HttpResp) (t : String)
    (h : joinedCount transactionId (ServerJs.webhook cfg sh b s oracle net t).2.2 ≠ 0) :
    TxnJoined (ServerJs.webhook cfg sh b s oracle net t).2.1 transactionId := by
  rcases serverjs_webhook_shape cfg sh b s oracle net t with ⟨_, hev⟩ | ⟨id, u, uname, ulink, heq⟩
  · rw [hev] at h
    exact absurd rfl h
  · have h1 : (ServerJs.webhook cfg sh b s oracle net t).2.1
        = (markJoinedIfNotAlready s id u t).1 := by rw [heq]
    have h2 : (ServerJs.webhook cfg sh b s oracle net t).2.2
        = (if (markJoinedIfNotAlready s id u t).2 && cfg.fireJoinEvent then
            [⟨uname, "pass_paid_community_telegram_joined", id, ulink, u, none⟩]
          else []) := by rw [heq]
    rw [h2] at h
    rw [h1]
    by_cases hc : ((markJoinedIfNotAlready s id u t).2 && cfg.fireJoinEvent) = true
    · by_cases hid : id = transactionId
      · subst hid
        exact markJoined_fired_joined s id u t ((Bool.and_eq_true _ _).mp hc).1
      · exfalso
        apply h
        rw [if_pos hc]
        simp [joinedCount, List.filter_cons, hid]
    · rw [if_neg hc] at h
      exact absurd rfl h

theorem runWebhooks_no_emit (cfg : Config) (transactionId : String)
    (cs : List ServerJs.WebhookCall) (s : Store) (h : TxnJoined s transactionId) :
    joinedCount transactionId (ServerJs.runWebhooks cfg s cs).2 = 0 := by
  induction cs generalizing s with
  | nil => rfl
  | cons c rest ih =>
    simp only [ServerJs.runWebhooks]
    rw [joinedCount_append]
    rw [serverjs_webhook_no_emit cfg transactionId c.secretHeader c.body s c.oracle c.net c.tNow h,
        ih _ (serverjs_webhook_joined_preserved cfg transactionId c.secretHeader c.body s
          c.oracle c.net c.tNow h)]

theorem runWebhooks_joined_le_one (cfg : Config) (transactionId : String)
    (cs : List ServerJs.WebhookCall) (s : Store) :
    joinedCount transactionId (ServerJs.runWebhooks cfg s cs).2 ≤ 1 := by
  induction cs generalizing s with
  | nil => exact Nat.zero_le 1
  | cons c rest ih =>
    simp only [ServerJs.runWebhooks]
    rw [joinedCount_append]
    by_cases h0 : joinedCount transactionId
        (ServerJs.webhook cfg c.secretHeader c.body s c.oracle c.net c.tNow).2.2 = 0
    · rw [h0]
      simpa using ih (ServerJs.webhook cfg c.secretHeader c.body s c.oracle c.net c.tNow).2.1
    · have h1 := serverjs_webhook_emit_le_one cfg transactionId c.secretHeader c.body s
        c.oracle c.net c.tNow
      have h2 := runWebhooks_no_emit cfg transactionId rest _
        (serverjs_webhook_emit_joined cfg transactionId c.secretHeader c.body s
          c.oracle c.net c.tNow h0)
      omega

theorem serverjs_webhook_status (cfg : Config) (sh : Option String) (b : WebhookBody)
    (s : Store) (oracle : Nat → Bool) (net : Except String HttpResp) (t : String)
    (h : sh = some cfg.webhookSecret) :
    (ServerJs.webhook cfg sh b s oracle net t).1.status = 200 := by
  subst h
  unfold ServerJs.webhook
  dsimp only
  rw [if_neg (by simp)]
  repeat' split
  all_goals rfl

theorem part000_webhook_status (cfg : Config) (b : WebhookBody) (s : Store)
    (oracle : Nat → Bool) (net : Except String HttpResp) (t : String) :
    (Part000.webhook cfg b s oracle net t).1.status = 200 := by
  unfold Part000.webhook
  dsimp only
  repeat' split
  all_goals rfl

theorem part001_webhook_status (cfg : Config) (sh : Option String) (b : WebhookBody)
    (s : Store) (oracle : Nat → Bool) (net : Except String HttpResp) (t : String)
    (h : sh = some cfg.webhookSecret) :
    (Part001.webhook cfg sh b s oracle net t).1.status = 200 := by
  subst h
  unfold Part001.webhook
  dsimp only
  rw [if_neg (by simp)]
  repeat' split
  all_goals rfl

/-- Claim C1: for every requestId with an existing InviteRequest, the first
markJoinedIfNotAlready call that observes joined=false sets joined=true and
returns fired=true; every subsequent call for the same requestId returns
fired=false and leaves the store unchanged; over any call sequence at most
one call fires, and across any sequence of webhook deliveries at most one
joined event is emitted for that requestId. -/
theorem claim1_join_fired_exactly_once
    (cfg : Config) (s : Store) (transactionId : String) (r : TxnRecord)
    (u : Option String) (t : String) (cs : List (Option String × String))
    (hl : lookupKey s.txns transactionId = some r) (hj : r.joined = false) :
    (markJoinedIfNotAlready s transactionId u t).2 = true
    ∧ lookupKey (markJoinedIfNotAlready s transactionId u t).1.txns transactionId
        = some { r with joined := true, telegramUserId := u, joinedAt := some t }
    ∧ runMarkCalls (markJoinedIfNotAlready s transactionId u t).1 transactionId cs
        = ((markJoinedIfNotAlready s transactionId u t).1, List.replicate cs.length false)
    ∧ (∀ (s₀ : Store) (cs₀ : List (Option String × String)),
        (runMarkCalls s₀ transactionId cs₀).2.count true ≤ 1)
    ∧ (∀ (s₀ : Store) (calls : List ServerJs.WebhookCall),
        joinedCount transactionId (ServerJs.runWebhooks cfg s₀ calls).2 ≤ 1) := by
  have hf := markJoined_fired s transactionId u t r hl hj
  refine ⟨by rw [hf], ?_, ?_,
    fun s₀ cs₀ => runMarkCalls_count_le_one transactionId cs₀ s₀,
    fun s₀ calls => runWebhooks_joined_le_one cfg transactionId calls s₀⟩
  · rw [hf]
    exact lookupKey_setKey_self s.txns transactionId _
  · exact runMarkCalls_no_op transactionId cs _
      (markJoined_fired_joined s transactionId u t (by rw [hf]))

theorem claim1_witness :
    lookupKey store1.txns "T1" = some rec1 ∧ rec1.joined = false
    ∧ (markJoinedIfNotAlready store1 "T1" (some "42") "t1").2 = true
    ∧ lookupKey (markJoinedIfNotAlready store1 "T1" (some "42") "t1").1.txns "T1"
        = some { rec1 with joined := true, telegramUserId := some "42", joinedAt := some "t1" }
    ∧ runMarkCalls (markJoinedIfNotAlready store1 "T1" (some "42") "t1").1 "T1"
        [(some "43", "t2"), (some "44", "t3")]
        = ((markJoinedIfNotAlready store1 "T1" (some "42") "t1").1, [false, false]) := by
  have h := claim1_join_fired_exactly_once cfg0 store1 "T1" rec1 (some "42") "t1"
    [(some "43", "t2"), (some "44", "t3")] (by decide) (by decide)
  exact ⟨by decide, by decide, h.1, h.2.1, h.2.2.1⟩

/-- Claim C10: the join transition writes only joined, telegramUserId and
joinedAt; the fields userId, transactionId, inviteLink, inviteHash and
createdAt of the InviteRequest are unchanged whether or not it fired. -/
theorem claim10_join_frame (s : Store) (transactionId : String) (u : Option String)
    (t : String) (r : TxnRecord) (hl : lookupKey s.txns transactionId = some r) :
    ∃ r', lookupKey (markJoinedIfNotAlready s transactionId u t).1.txns transactionId = some r'
      ∧ r'.userId = r.userId ∧ r'.transactionId = r.transactionId
      ∧ r'.inviteLink = r.inviteLink ∧ r'.inviteHash = r.inviteHash
      ∧ r'.createdAt = r.createdAt := by
  by_cases hj : r.joined = true
  · refine ⟨r, ?_, rfl, rfl, rfl, rfl, rfl⟩
    rw [markJoined_no_op s transactionId u t
      (fun r0 hr0 => by rw [hl] at hr0; cases hr0; exact hj)]
    exact hl
  · have hj' : r.joined = false := by simpa using hj
    refine ⟨{ r with joined := true, telegramUserId := u, joinedAt := some t },
      ?_, rfl, rfl, rfl, rfl, rfl⟩
    rw [markJoined_fired s transactionId u t r hl hj']
    exact lookupKey_setKey_self s.txns transactionId _

theorem claim10_witness :
    ∃ r', lookupKey (markJoinedIfNotAlready store1 "T1" (some "42") "t1").1.txns "T1" = some r'
      ∧ r'.userId = rec1.userId ∧ r'.transactionId = rec1.transactionId
      ∧ r'.inviteLink = rec1.inviteLink ∧ r'.inviteHash = rec1.inviteHash
      ∧ r'.createdAt = rec1.createdAt :=
  claim10_join_frame store1 "T1" (some "42") "t1" rec1 (by decide)

/-- Claim C8: the notification endpoint always acknowledges with HTTP 200 for
every inbound notification that reaches its processing body (after the
optional shared-secret check), for every payload, store state, failure oracle
and emitter network outcome, in all three webhook variants. -/
theorem claim8_webhook_always_acks :
    (∀ (cfg : Config) (sh : Option String) (b : WebhookBody) (s : Store) (oracle : Nat → Bool)
        (net : Except String HttpResp) (t : String), sh = some cfg.webhookSecret →
      (ServerJs.webhook cfg sh b s oracle net t).1.status = 200)
    ∧ (∀ (cfg : Config) (b : WebhookBody) (s : Store) (oracle : Nat → Bool)
        (net : Except String HttpResp) (t : String),
      (Part000.webhook cfg b s oracle net t).1.status = 200)
    ∧ (∀ (cfg : Config) (sh : Option String) (b : WebhookBody) (s : Store) (oracle : Nat → Bool)
        (net : Except String HttpResp) (t : String), sh = some cfg.webhookSecret →
      (Part001.webhook cfg sh b s oracle net t).1.status = 200) :=
  ⟨serverjs_webhook_status, part000_webhook_status, part001_webhook_status⟩

theorem claim8_witness :
    (ServerJs.webhook cfg0 (some "sec") bodyMember emptyStore failNever netOk "t").1.status = 200
    ∧ (Part000.webhook cfg0 bodyMember emptyStore failNever netOk "t").1.status = 200
    ∧ (Part001.webhook cfg0 (some "sec") bodyMember emptyStore failNever netOk "t").1.status = 200 :=
  ⟨claim8_webhook_always_acks.1 cfg0 (some "sec") bodyMember emptyStore failNever netOk "t" rfl,
   claim8_webhook_always_acks.2.1 cfg0 bodyMember emptyStore failNever netOk "t",
   claim8_webhook_always_acks.2.2 cfg0 (some "sec") bodyMember emptyStore failNever netOk "t" rfl⟩

/-- Claim C6 counterexample: part_001's fireWebEngageEvent propagates a
failure to its caller: on a non-2xx response it returns a thrown error
instead of returning normally. -/
theorem claim6_part001_emitter_throws :
    Part001.fireWebEngageEvent (.ok ⟨false, 500, "boom"⟩)
      = .error "WebEngage failed: 500 boom" := by
  rfl

/-- Claim C6 as amended: the server.js and part_000 emitters never propagate
a failure (they always return normally, for every network outcome); part_001's
emitter throws on every non-2xx response and on every transport error, but
its only caller, the part_001 webhook, catches at the endpoint boundary and
still acknowledges with HTTP 200. -/
theorem claim6_emitter_amended :
    (∀ net, ∃ logs, ServerJs.webengageFireEvent net = .ok logs)
    ∧ (∀ net, ∃ okFlag, Part000.webengageFireEvent net = .ok okFlag)
    ∧ (∀ r : HttpResp, r.ok = false → ∃ e, Part001.fireWebEngageEvent (.ok r) = .error e)
    ∧ (∀ e, Part001.fireWebEngageEvent (.error e) = .error e)
    ∧ (∀ (cfg : Config) (sh : Option String) (b : WebhookBody) (s : Store) (oracle : Nat → Bool)
        (net : Except String HttpResp) (t : String), sh = some cfg.webhookSecret →
      (Part001.webhook cfg sh b s oracle net t).1.status = 200) := by
  refine ⟨?_, ?_, ?_, fun e => rfl, part001_webhook_status⟩
  · intro net
    cases net <;> exact ⟨_, rfl⟩
  · intro net
    cases net <;> exact ⟨_, rfl⟩
  · intro r h
    exact ⟨"WebEngage failed: " ++ toString r.status ++ " " ++ r.body,
      by simp [Part001.fireWebEngageEvent, h]⟩

theorem claim6_amended_witness :
    (∃ e, Part001.fireWebEngageEvent (.ok ⟨false, 404, "nf"⟩) = .error e)
    ∧ (Part001.webhook cfg0 (some "sec") bodyMember emptyStore failNever
        (.error "socket hang up") "t").1.status = 200 :=
  ⟨claim6_emitter_amended.2.2.1 ⟨false, 404, "nf"⟩ rfl,
   claim6_emitter_amended.2.2.2.2 cfg0 (some "sec") bodyMember emptyStore failNever
     (.error "socket hang up") "t" rfl⟩

/-- Claim C7 counterexample: part_001's fingerprint of a missing (null) input
is not the digest of the empty string. -/
theorem claim7_hashInvite_missing_differs :
    Part001.hashInvite .null ≠ Part001.hashInvite (.str "") := by decide

/-- Claim C7 as amended: every hasher is total on empty, null and absent
input; server.js hash and part_000 hashInviteLink map all of them to the
empty-string digest, while the second server.js variant's hashInviteLink and
part_001's hashInvite hash the coerced strings "null" and "undefined", whose
digests are defined but differ from the empty-string digest. -/
theorem claim7_hashers_amended :
    ServerJs.hash .null = SHA256.sha256hex ""
    ∧ ServerJs.hash .undefined = SHA256.sha256hex ""
    ∧ ServerJs.hash (.str "") = SHA256.sha256hex ""
    ∧ Part000.hashInviteLink .null = SHA256.sha256hex ""
    ∧ Part000.hashInviteLink .undefined = SHA256.sha256hex ""
    ∧ Part000.hashInviteLink (.str "") = SHA256.sha256hex ""
    ∧ SHA256.sha256hex ""
        = "e3b0c44298fc1c149afbf4c8996fb92427ae41e4649b934ca495991b7852b855"
    ∧ ServerJsB.hashInviteLink .null = SHA256.sha256hex "null"
    ∧ ServerJsB.hashInviteLink .undefined = SHA256.sha256hex "undefined"
    ∧ Part001.hashInvite .null = SHA256.sha256hex "null"
    ∧ Part001.hashInvite .undefined = SHA256.sha256hex "undefined"
    ∧ ServerJsB.hashInviteLink .null ≠ SHA256.sha256hex ""
    ∧ ServerJsB.hashInviteLink .undefined ≠ SHA256.sha256hex ""
    ∧ Part001.hashInvite .null ≠ SHA256.sha256hex ""
    ∧ Part001.hashInvite .undefined ≠ SHA256.sha256hex "" := by
  refine ⟨rfl, rfl, rfl, rfl, rfl, rfl, sha256hex_empty_vector, rfl, rfl, rfl, rfl,
    by decide, by decide, by decide, by decide⟩

/-- Claim C9: a notification whose channel identifier (as each handler
extracts it) differs from the configured channel, or whose membership status
is not in the active vocabulary, leaves the store untouched and emits no
event in every webhook variant. -/
theorem claim9_filter_noop (cfg : Config) (sh : Option String) (b : WebhookBody) (s : Store)
    (oracle : Nat → Bool) (net : Except String HttpResp) (t : String)
    (hA : (ServerJs.updOf b).chatId.getD "" ≠ cfg.channelId
        ∨ isActiveStatusOpt (ServerJs.updOf b).newStatus = false)
    (hC : jsTrim ((Part000.updOf b).chatId.getD "") ≠ cfg.channelId
        ∨ isActiveStatus (jsTrim ((Part000.updOf b).newStatus.getD "")) = false)
    (hD : ∀ u, Part001.updOf b = some u →
        (u.chatId.getD "" ≠ cfg.channelId ∨ isActiveStatusOpt u.newStatus = false)) :
    (ServerJs.webhook cfg sh b s oracle net t).2 = (s, [])
    ∧ (Part000.webhook cfg b s oracle net t).2 = (s, [])
    ∧ (Part001.webhook cfg sh b s oracle net t).2 = (s, []) := by
  refine ⟨?_, ?_, ?_⟩
  · unfold ServerJs.webhook
    dsimp only
    by_cases hs : sh ≠ some cfg.webhookSecret
    · rw [if_pos hs]
    · rw [if_neg hs]
      by_cases hch : (ServerJs.updOf b).chatId.getD "" ≠ cfg.channelId
      · rw [if_pos hch]
      · rw [if_neg hch]
        have hst : isActiveStatusOpt (ServerJs.updOf b).newStatus = false := by
          rcases hA with h | h
          · exact absurd h hch
          · exact h
        have hcond : (!((ServerJs.updOf b).newStatus == some "member"
            || (ServerJs.updOf b).newStatus == some "administrator")) = true := by
          cases hso : (ServerJs.updOf b).newStatus with
          | none => rfl
          | some st =>
            rw [hso] at hst
            simp only [isActiveStatusOpt, isActiveStatus] at hst
            simp only [Bool.or_eq_false_iff] at hst
            simp [hst.1.1, hst.1.2]
        rw [if_pos hcond]
  · unfold Part000.webhook
    dsimp only
    by_cases hst : isActiveStatus (jsTrim ((Part000.updOf b).newStatus.getD "")) = true
    · have hch : jsTrim ((Part000.updOf b).chatId.getD "") ≠ cfg.channelId := by
        rcases hC with h | h
        · exact h
        · rw [h] at hst; cases hst
      have hst' := hst
      simp only [isActiveStatus] at hst'
      rw [if_neg (by simp [hst'])]
      rw [if_pos hch]
    · have hst' : isActiveStatus (jsTrim ((Part000.updOf b).newStatus.getD "")) = false := by
        simpa using hst
      simp only [isActiveStatus] at hst'
      rw [if_pos (by simp [hst'])]
  · unfold Part001.webhook
    dsimp only
    by_cases hs : sh ≠ some cfg.webhookSecret
    · rw [if_pos hs]
    · rw [if_neg hs]
      cases hu : Part001.updOf b with
      | none => rfl
      | some u =>
        dsimp only
        rcases hD u hu with h | h
        · rw [if_pos h]
        · by_cases hch : u.chatId.getD "" ≠ cfg.channelId
          · rw [if_pos hch]
          · rw [if_neg hch]
            have hcond : (!(u.newStatus == some "member" || u.newStatus == some "administrator"
                || u.newStatus == some "creator")) = true := by
              cases hso : u.newStatus with
              | none => rfl
              | some st =>
                rw [hso] at h
                simp only [isActiveStatusOpt, isActiveStatus] at h
                simp only [Bool.or_eq_false_iff] at h
                simp [h.1.1, h.1.2, h.2]
            rw [if_pos hcond]

theorem claim9_witness :
    (ServerJs.webhook cfg0 (some "sec") bodyWrongChan emptyStore failNever netOk "t").2
        = (emptyStore, [])
    ∧ (Part000.webhook cfg0 bodyWrongChan emptyStore failNever netOk "t").2 = (emptyStore, [])
    ∧ (Part001.webhook cfg0 (some "sec") bodyWrongChan emptyStore failNever netOk "t").2
        = (emptyStore, []) :=
  claim9_filter_noop cfg0 (some "sec") bodyWrongChan emptyStore failNever netOk "t"
    (Or.inl (by decide)) (Or.inl (by decide))
    (fun u hu => by cases hu; exact Or.inl (by decide))

/-- Claim C2 (evidence of the part_000 divergence): issuing twice for the
same transactionId in part_000 returns two different credentials, carries no
reuse flag, leaves two CredentialIndexEntry documents, and calls the provider
again (a provider failure on the retry yields 500); the server.js variant
returns the stored credential with reused=true on the second call without
consulting the provider, keeping exactly one index entry. -/
theorem claim2_part000_issuance_not_idempotent :
    part000_first.1.inviteLink = some "L1"
    ∧ part000_second.1.inviteLink = some "L2"
    ∧ part000_second.1.reused = none
    ∧ part000_second.2.1.invs.length = 2
    ∧ (Part000.createInvite cfg0 (some "k") "U1" "T1" (.error "NOMINT") failNever
        part000_first.2.1).1.status = 500
    ∧ serverjs_second.1 = ⟨200, true, some "L1", some true, none⟩
    ∧ serverjs_second.2.1.invs.length = 1 := by
  exact ⟨rfl, rfl, rfl, by decide, rfl, rfl, rfl⟩

/-- Claim C3 (evidence of the part_001 divergence): part_001 creates the
InviteRequest and its CredentialIndexEntry by two separately awaited writes;
between them (and after a failure of the second write, which the endpoint
reports as 500) the store holds the InviteRequest with no
CredentialIndexEntry.  The join transaction never mutates invite_lookup, and
the server.js variant creates both documents in its single transaction
step. -/
theorem claim3_part001_creation_not_atomic :
    part001_first.2
        = Part001.invWrite "U1" "T1" "L1" (Part001.hashInvite (.str "L1")) "t0" part001_mid
    ∧ (lookupKey part001_mid.txns "T1").isSome = true
    ∧ part001_mid.invs = []
    ∧ part001_firstFail.1.status = 500
    ∧ part001_firstFail.2 = part001_mid
    ∧ (∀ (s : Store) (transactionId : String) (u : Option String) (t : String),
        (markJoinedIfNotAlready s transactionId u t).1.invs = s.invs)
    ∧ serverjs_first.2.1.txns.length = 1 ∧ serverjs_first.2.1.invs.length = 1 := by
  exact ⟨rfl, rfl, rfl, rfl, rfl, markJoined_invs, rfl, rfl⟩

/-- Claim C4 (evidence of the part_000 divergence): a notification that
passes all filters but whose fingerprint has no index entry is answered
"link not found" by part_000 with no store change at all (no
OrphanJoinRecord), while server.js appends exactly one orphan record and
part_001 appends exactly one orphan record, with no other mutation and no
event in any variant. -/
theorem claim4_part000_orphan_not_recorded :
    Part000.webhook cfg0 bodyMember emptyStore failNever netOk "t"
        = (⟨200, "link not found"⟩, emptyStore, [])
    ∧ ServerJs.webhook cfg0 (some "sec") bodyMember emptyStore failNever netOk "t"
        = (⟨200, "ok: orphan stored"⟩,
           ⟨[], [], [⟨"LX", none, some "42", none, some "t", none, "Link not in database"⟩]⟩,
           [])
    ∧ (Part001.webhook cfg0 (some "sec") bodyMember emptyStore failNever netOk "t").1.body
        = "ok: orphan stored"
    ∧ (Part001.webhook cfg0 (some "sec") bodyMember emptyStore failNever netOk "t").2.1.orphans.length = 1
    ∧ (Part001.webhook cfg0 (some "sec") bodyMember emptyStore failNever netOk "t").2.1.txns = []
    ∧ (Part001.webhook cfg0 (some "sec") bodyMember emptyStore failNever netOk "t").2.1.invs = []
    ∧ (Part001.webhook cfg0 (some "sec") bodyMember emptyStore failNever netOk "t").2.2 = [] := by
  exact ⟨rfl, rfl, rfl, rfl, rfl, rfl, rfl⟩

/-- Claim C5 (evidence of the server.js divergence): a "creator" membership
notification on the configured channel is discarded by server.js's
two-status filter, while part_000 and part_001 process it past the status
filter (reaching the lookup); a non-active status such as "left" is
discarded by every variant. -/
theorem claim5_serverjs_filter_rejects_creator :
    ServerJs.webhook cfg0 (some "sec") bodyCreator emptyStore failNever netOk "t"
        = (⟨200, "ignored: not a join"⟩, emptyStore, [])
    ∧ Part000.webhook cfg0 bodyCreator emptyStore failNever netOk "t"
        = (⟨200, "link not found"⟩, emptyStore, [])
    ∧ (Part001.webhook cfg0 (some "sec") bodyCreator emptyStore failNever netOk "t").1.body
        = "ok: orphan stored"
    ∧ Part000.webhook cfg0 bodyLeft emptyStore failNever netOk "t"
        = (⟨200, "ignored"⟩, emptyStore, [])
    ∧ ServerJs.webhook cfg0 (some "sec") bodyLeft emptyStore failNever netOk "t"
        = (⟨200, "ignored: not a join"⟩, emptyStore, [])
    ∧ Part001.webhook cfg0 (some "sec") bodyLeft emptyStore failNever netOk "t"
        = (⟨200, "ignored: not join"⟩, emptyStore, []) := by
  exact ⟨rfl, rfl, rfl, rfl, rfl, rfl⟩
